import Mathlib

/-!
Shallow embedding of the EXI channel of the Dolphin emulator
(`Source/Core/Core/HW/EXI_Channel.cpp`).

Each MMIO handler of `CEXIChannel::RegisterMMIO`, together with
`TransferComplete`, `IsCausingInterrupt`, `GetDevice`, `GetClockRate` and
`AddDevice`, is translated into a pure Lean function over an explicit
channel-state record.  Machine integers are modelled as `Nat` with explicit
reductions `% 2 ^ 32` / `% 2 ^ 64` exactly where the C++ types force a
truncation or wrap-around.  Calls into device objects are recorded as an
explicit trace (`DeviceCall`), and event scheduling is returned as data.
-/

namespace EXI

/-- `2 ^ 32`, the modulus of the C++ `u32` type. -/
def two32 : Nat := 2 ^ 32

/-- `2 ^ 64`, the modulus of the C++ `u64` type. -/
def two64 : Nat := 2 ^ 64

/-- Wrapping `u64` subtraction: `a - b` as computed on C++ `u64` operands,
assuming `a < 2^64` and `b < 2^64`. -/
def sub64 (a b : Nat) : Nat := (two64 + a - b) % two64

/-- Decoded form of the packed status register (the `UEXI_STATUS` bitfield
union of the source).  The same shape serves as the stored `m_Status` and as
the decoded value of a STATUS write. -/
structure UEXI_STATUS where
  EXIINTMASK : Bool
  EXIINT : Bool
  TCINTMASK : Bool
  TCINT : Bool
  CLK : Nat
  CHIP_SELECT : Nat
  EXT : Bool
  ROMDIS : Bool
  EXTINT : Bool
  EXTINTMASK : Bool
deriving DecidableEq, Repr

/-- Decoded form of the packed control register (the `UEXI_CONTROL` bitfield
union of the source). -/
structure UEXI_CONTROL where
  TSTART : Bool
  DMA : Bool
  RW : Nat
  TLEN : Nat
deriving DecidableEq, Repr

/-- The slice of an `IEXIDevice` the channel observes: the two polled
predicates and the values produced by immediate reads.  (`ImmReadVal size`
is the `u32` returned by `ImmRead(size)`; `ImmReadWriteVal data size` the
value left in `data` by `ImmReadWrite(data, size)`.) -/
structure IEXIDevice where
  IsPresent : Bool
  IsInterruptSet : Bool
  ImmReadVal : Nat → Nat
  ImmReadWriteVal : Nat → Nat → Nat

/-- The mutable state of one `CEXIChannel`, with the source's member names.
`m_dma_time_*` are `u64` snapshot fields, the rest of the registers `u32`. -/
structure CEXIChannel where
  m_ChannelId : Nat
  m_Status : UEXI_STATUS
  m_Control : UEXI_CONTROL
  m_DMAMemoryAddress : Nat
  m_DMALength : Nat
  m_ImmData : Nat
  m_dma_time_start : Nat
  m_dma_time_length : Nat
  m_dma_data_start : Nat
  m_dma_data_length : Nat
deriving DecidableEq, Repr

/-- A call made by the channel into one of its device slots, recorded as
trace data. -/
inductive DeviceCall where
  | SetCS (slot : Fin 3) (level : Nat)
  | ImmRead (slot : Fin 3) (size : Nat)
  | ImmWrite (slot : Fin 3) (value size : Nat)
  | ImmReadWrite (slot : Fin 3) (value size : Nat)
  | DMARead (slot : Fin 3) (addr len : Nat)
  | DMAWrite (slot : Fin 3) (addr len : Nat)
deriving DecidableEq, Repr

/-- The `switch (chip_select)` of `CEXIChannel::GetDevice`: one-hot codes
1, 2, 4 decode to slots 0, 1, 2; every other code decodes to no slot
(the source returns `nullptr`). -/
def csSlot : Nat → Option (Fin 3)
  | 1 => some 0
  | 2 => some 1
  | 4 => some 2
  | _ => none

/-- `CEXIChannel::GetDevice`, resolving the slot against the device array.
In the source the three slots are always populated, so the result is `none`
exactly when the chip-select code is not one-hot. -/
def GetDevice (devs : Fin 3 → IEXIDevice) (cs : Nat) : Option IEXIDevice :=
  (csSlot cs).map devs

/-- `CEXIChannel::GetClockRate`: `(1 << m_Status.CLK) * 1000000`. -/
def GetClockRate (ch : CEXIChannel) : Nat :=
  (1 <<< ch.m_Status.CLK) * 1000000

/-- The STATUS read handler: recompute `EXT` (channel 2 forces 0, otherwise
poll `GetDevice(1)->IsPresent()`), store it, and return the packed status.
The returned status is the `m_Status` of the resulting state. -/
def StatusRead (devs : Fin 3 → IEXIDevice) (ch : CEXIChannel) : CEXIChannel :=
  let ext : Bool :=
    if ch.m_ChannelId = 2 then
      false
    else
      match GetDevice devs 1 with
      | some d => d.IsPresent
      | none => false
  { ch with m_Status := { ch.m_Status with EXT := ext } }

/-- The STATUS write handler, taking the decoded written value.  Returns the
new state together with the trace of `SetCS` calls made on the device slots.
Field order and conditions follow the source: masks overwritten, latches
cleared on written 1, `CLK` assigned, `ROMDIS` set only while currently 0,
then the chip-select block (deassert old, update, assert new). -/
def StatusWrite (ch : CEXIChannel) (newStatus : UEXI_STATUS) :
    CEXIChannel × List DeviceCall :=
  let s0 := ch.m_Status
  let s1 : UEXI_STATUS :=
    { s0 with
      EXIINTMASK := newStatus.EXIINTMASK
      EXIINT := if newStatus.EXIINT then false else s0.EXIINT
      TCINTMASK := newStatus.TCINTMASK
      TCINT := if newStatus.TCINT then false else s0.TCINT
      CLK := newStatus.CLK
      EXTINTMASK := newStatus.EXTINTMASK
      EXTINT := if newStatus.EXTINT then false else s0.EXTINT
      ROMDIS := if s0.ROMDIS = false then newStatus.ROMDIS else s0.ROMDIS }
  if s1.CHIP_SELECT ≠ newStatus.CHIP_SELECT then
    let calls :=
      (match csSlot s1.CHIP_SELECT with
       | some sl => [DeviceCall.SetCS sl 0]
       | none => []) ++
      (match csSlot newStatus.CHIP_SELECT with
       | some sl => [DeviceCall.SetCS sl 1]
       | none => [])
    ({ ch with m_Status := { s1 with CHIP_SELECT := newStatus.CHIP_SELECT } }, calls)
  else
    ({ ch with m_Status := s1 }, [])

/-- The DMAADDR read handler at tick `now`.  While `TSTART ∧ DMA`, the
progress is re-derived from the transfer snapshot with the source's `u64`
arithmetic (`elapsed = now - m_dma_time_start` wraps, the product
`m_dma_data_length * elapsed` wraps, the quotient is truncated to `u32`)
and the result is masked with `0xFFFFFFE0`; otherwise the stored value is
returned unchanged.  Returns the new state and the value read. -/
def DMAAddrRead (ch : CEXIChannel) (now : Nat) : CEXIChannel × Nat :=
  if ch.m_Control.TSTART && ch.m_Control.DMA then
    let elapsed := sub64 now ch.m_dma_time_start
    let a :=
      if elapsed > ch.m_dma_time_length then
        (ch.m_dma_data_start + ch.m_dma_data_length) % two32
      else
        ((ch.m_dma_data_start +
            ch.m_dma_data_length * elapsed % two64 / ch.m_dma_time_length) % two64) % two32
    let a2 := a &&& 0xFFFFFFE0
    ({ ch with m_DMAMemoryAddress := a2 }, a2)
  else
    (ch, ch.m_DMAMemoryAddress)

/-- The DMALENGTH read handler at tick `now`, symmetric to `DMAAddrRead`:
while active the remaining length `m_dma_data_length - m_dma_data_length *
elapsed / m_dma_time_length` is recomputed in `u64`, truncated to `u32` and
masked with `0xFFFFFFE0`. -/
def DMALengthRead (ch : CEXIChannel) (now : Nat) : CEXIChannel × Nat :=
  if ch.m_Control.TSTART && ch.m_Control.DMA then
    let elapsed := sub64 now ch.m_dma_time_start
    let l :=
      if elapsed > ch.m_dma_time_length then
        0
      else
        sub64 ch.m_dma_data_length
          (ch.m_dma_data_length * elapsed % two64 / ch.m_dma_time_length) % two32
    let l2 := l &&& 0xFFFFFFE0
    ({ ch with m_DMALength := l2 }, l2)
  else
    (ch, ch.m_DMALength)

/-- Direct `u32` MMIO write to `m_DMAMemoryAddress`. -/
def DMAAddrWrite (ch : CEXIChannel) (v : Nat) : CEXIChannel :=
  { ch with m_DMAMemoryAddress := v % two32 }

/-- Direct `u32` MMIO write to `m_DMALength`. -/
def DMALengthWrite (ch : CEXIChannel) (v : Nat) : CEXIChannel :=
  { ch with m_DMALength := v % two32 }

/-- Direct `u32` MMIO write to `m_ImmData`. -/
def ImmDataWrite (ch : CEXIChannel) (v : Nat) : CEXIChannel :=
  { ch with m_ImmData := v % two32 }

/-- The DMACONTROL write handler, taking the decoded written value, the
current tick `now` and `SystemTimers::GetTicksPerSecond()` as `tps`.
Returns the new state, the trace of device transfer calls, and the
scheduled completion event, `some (delay, userdata)` mirroring
`CoreTiming::ScheduleEvent(xfer_time, xfer_complete_event, m_ChannelId)`.

The write is ignored while `TSTART` is set.  Otherwise the four control
fields are overwritten and, if the new `TSTART` is 1, the transfer is
dispatched: with no device at the current chip-select nothing further
happens; otherwise the immediate or DMA call is issued (an unknown `RW`
code only trips a debug assertion and dispatches nothing), the duration
`8 * xfer_size * tps / GetClockRate()` is computed with the source's
types (`8 * xfer_size` wraps at `u32`, the product with `tps` at `u64`),
the snapshot is captured and the completion event scheduled. -/
def DMAControlWrite (devs : Fin 3 → IEXIDevice) (ch : CEXIChannel)
    (newControl : UEXI_CONTROL) (now tps : Nat) :
    CEXIChannel × List DeviceCall × Option (Nat × Nat) :=
  if ch.m_Control.TSTART then
    (ch, [], none)
  else
    let ch1 :=
      { ch with m_Control :=
          { TLEN := newControl.TLEN
            RW := newControl.RW
            DMA := newControl.DMA
            TSTART := newControl.TSTART } }
    if ch1.m_Control.TSTART then
      match csSlot ch1.m_Status.CHIP_SELECT with
      | none => (ch1, [], none)
      | some sl =>
        let d := devs sl
        let dispatched : CEXIChannel × List DeviceCall :=
          if ch1.m_Control.DMA = false then
            let xfer_size := ch1.m_Control.TLEN + 1
            match ch1.m_Control.RW with
            | 0 => ({ ch1 with m_ImmData := d.ImmReadVal xfer_size % two32 },
                    [DeviceCall.ImmRead sl xfer_size])
            | 1 => (ch1, [DeviceCall.ImmWrite sl ch1.m_ImmData xfer_size])
            | 2 => ({ ch1 with m_ImmData := d.ImmReadWriteVal ch1.m_ImmData xfer_size % two32 },
                    [DeviceCall.ImmReadWrite sl ch1.m_ImmData xfer_size])
            | _ => (ch1, [])
          else
            match ch1.m_Control.RW with
            | 0 => (ch1, [DeviceCall.DMARead sl ch1.m_DMAMemoryAddress ch1.m_DMALength])
            | 1 => (ch1, [DeviceCall.DMAWrite sl ch1.m_DMAMemoryAddress ch1.m_DMALength])
            | _ => (ch1, [])
        let ch2 := dispatched.1
        let xfer_size := if ch2.m_Control.DMA then ch2.m_DMALength else ch2.m_Control.TLEN + 1
        let xfer_time := 8 * xfer_size % two32 * tps % two64 / GetClockRate ch2
        let ch3 :=
          { ch2 with
            m_dma_time_start := now
            m_dma_time_length := xfer_time
            m_dma_data_start := ch2.m_DMAMemoryAddress
            m_dma_data_length := ch2.m_DMALength }
        (ch3, dispatched.2, some (xfer_time, ch3.m_ChannelId))
    else
      (ch1, [], none)

/-- `CEXIChannel::TransferComplete` acting on the target channel: if `DMA`
is set, finalize the progress registers from the snapshot, zero the
snapshot, latch `TCINT` and request interrupt re-evaluation (the returned
`Bool`); in all cases clear `TSTART` afterwards. -/
def TransferComplete (ch : CEXIChannel) : CEXIChannel × Bool :=
  if ch.m_Control.DMA then
    let ch1 :=
      { ch with
        m_DMALength := 0
        m_DMAMemoryAddress := (ch.m_dma_data_start + ch.m_dma_data_length) % two32
        m_dma_time_start := 0
        m_dma_time_length := 0
        m_dma_data_start := 0
        m_dma_data_length := 0
        m_Status := { ch.m_Status with TCINT := true } }
    ({ ch1 with m_Control := { ch1.m_Control with TSTART := false } }, true)
  else
    ({ ch with m_Control := { ch.m_Control with TSTART := false } }, false)

/-- `CEXIChannel::IsCausingInterrupt`: poll `GetDevice(1)` on channels 0
and 1, else the chip-selected device, possibly latching `EXIINT`; then
return the mask-and-or of the three latches.  Returns the new state and
the predicate's value. -/
def IsCausingInterrupt (devs : Fin 3 → IEXIDevice) (ch : CEXIChannel) :
    CEXIChannel × Bool :=
  let slot1Int : Bool :=
    match GetDevice devs 1 with
    | some d => d.IsInterruptSet
    | none => false
  let ch1 :=
    if ch.m_ChannelId != 2 && slot1Int then
      { ch with m_Status := { ch.m_Status with EXIINT := true } }
    else
      match GetDevice devs ch.m_Status.CHIP_SELECT with
      | some d =>
        if d.IsInterruptSet then
          { ch with m_Status := { ch.m_Status with EXIINT := true } }
        else ch
      | none => ch
  let ret :=
    (ch1.m_Status.EXIINT && ch1.m_Status.EXIINTMASK) ||
    (ch1.m_Status.TCINT && ch1.m_Status.TCINTMASK) ||
    (ch1.m_Status.EXTINT && ch1.m_Status.EXTINTMASK)
  (ch1, ret)

/-- The channel-state effect of `CEXIChannel::AddDevice`: when presence
notification is requested and the channel is not 2, latch `EXTINT` (and
request interrupt re-evaluation; the device slot itself lives outside this
record). -/
def AddDevice (ch : CEXIChannel) (notifyPresenceChanged : Bool) : CEXIChannel :=
  if notifyPresenceChanged && (ch.m_ChannelId != 2) then
    { ch with m_Status := { ch.m_Status with EXTINT := true } }
  else ch

/-- One guest- or emulator-visible operation on a channel, used to state
invariants over every modelled operation. -/
inductive Op where
  | statusRead
  | statusWrite (v : UEXI_STATUS)
  | dmaAddrRead (now : Nat)
  | dmaAddrWrite (v : Nat)
  | dmaLengthRead (now : Nat)
  | dmaLengthWrite (v : Nat)
  | controlWrite (v : UEXI_CONTROL) (now tps : Nat)
  | immDataWrite (v : Nat)
  | xferComplete
  | causingInterrupt
  | addDevice (notify : Bool)

/-- The state part of executing one operation. -/
def step (devs : Fin 3 → IEXIDevice) (ch : CEXIChannel) : Op → CEXIChannel
  | .statusRead => StatusRead devs ch
  | .statusWrite v => (StatusWrite ch v).1
  | .dmaAddrRead now => (DMAAddrRead ch now).1
  | .dmaAddrWrite v => DMAAddrWrite ch v
  | .dmaLengthRead now => (DMALengthRead ch now).1
  | .dmaLengthWrite v => DMALengthWrite ch v
  | .controlWrite v now tps => (DMAControlWrite devs ch v now tps).1
  | .immDataWrite v => ImmDataWrite ch v
  | .xferComplete => (TransferComplete ch).1
  | .causingInterrupt => (IsCausingInterrupt devs ch).1
  | .addDevice notify => AddDevice ch notify

/-- The DMAADDR read value as §4.1 of the spec words it, with exact
arithmetic: while `TSTART ∧ DMA`, if `elapsed ≥ t_duration` return
`(addr_start + length_total) & 0xFFFFFFE0`, else
`(addr_start + length_total · elapsed / t_duration) & 0xFFFFFFE0`;
otherwise the stored value.  Written from the spec's words, for
comparison against `DMAAddrRead`. -/
def DMAAddrRead_spec (ch : CEXIChannel) (now : Nat) : Nat :=
  if ch.m_Control.TSTART && ch.m_Control.DMA then
    let elapsed := now - ch.m_dma_time_start
    if elapsed ≥ ch.m_dma_time_length then
      (ch.m_dma_data_start + ch.m_dma_data_length) &&& 0xFFFFFFE0
    else
      (ch.m_dma_data_start +
        ch.m_dma_data_length * elapsed / ch.m_dma_time_length) &&& 0xFFFFFFE0
  else ch.m_DMAMemoryAddress

/-- The DMALENGTH read value as the spec words it:
`length_total · (t_duration − elapsed) / t_duration` masked (or 0 if
complete).  Written from the spec's words, for comparison against
`DMALengthRead`; the source computes
`length_total − length_total · elapsed / t_duration` instead, which can
differ after masking because division truncates. -/
def DMALengthRead_spec (ch : CEXIChannel) (now : Nat) : Nat :=
  if ch.m_Control.TSTART && ch.m_Control.DMA then
    let elapsed := now - ch.m_dma_time_start
    if elapsed ≥ ch.m_dma_time_length then 0
    else
      (ch.m_dma_data_length * (ch.m_dma_time_length - elapsed) /
        ch.m_dma_time_length) &&& 0xFFFFFFE0
  else ch.m_DMALength

/-- The DMALENGTH read value with the formula amended to what the source
computes: `length_total − length_total · elapsed / t_duration`, masked. -/
def DMALengthRead_amended (ch : CEXIChannel) (now : Nat) : Nat :=
  if ch.m_Control.TSTART && ch.m_Control.DMA then
    let elapsed := now - ch.m_dma_time_start
    if elapsed ≥ ch.m_dma_time_length then 0
    else
      (ch.m_dma_data_length -
        ch.m_dma_data_length * elapsed / ch.m_dma_time_length) &&& 0xFFFFFFE0
  else ch.m_DMALength

/-- Both progress read handlers reach their interpolation division
`... / m_dma_time_length` exactly when `TSTART ∧ DMA` holds and the wrapped
elapsed time does not exceed `m_dma_time_length`; this predicate holds when
that division is reached with divisor `m_dma_time_length = 0`, which is
undefined behaviour in the C++ source. -/
def PollDivisionByZero (ch : CEXIChannel) (now : Nat) : Bool :=
  ch.m_Control.TSTART && ch.m_Control.DMA &&
    !(decide (sub64 now ch.m_dma_time_start > ch.m_dma_time_length)) &&
    (ch.m_dma_time_length == 0)

/-! ### Concrete fixtures -/

/-- The all-zero status value. -/
def status0 : UEXI_STATUS :=
  { EXIINTMASK := false, EXIINT := false, TCINTMASK := false, TCINT := false
    CLK := 0, CHIP_SELECT := 0, EXT := false, ROMDIS := false
    EXTINT := false, EXTINTMASK := false }

/-- The all-zero control value. -/
def control0 : UEXI_CONTROL :=
  { TSTART := false, DMA := false, RW := 0, TLEN := 0 }

/-- An absent no-op device (the `EXIDEVICE_NONE` implementation). -/
def devNone : IEXIDevice :=
  { IsPresent := false, IsInterruptSet := false
    ImmReadVal := fun _ => 0, ImmReadWriteVal := fun _ _ => 0 }

/-- A present quiescent device. -/
def devPresent : IEXIDevice :=
  { IsPresent := true, IsInterruptSet := false
    ImmReadVal := fun _ => 0xDEADBEEF, ImmReadWriteVal := fun v _ => v }

/-- A device array with every slot empty. -/
def devsNone : Fin 3 → IEXIDevice := fun _ => devNone

/-- A zeroed channel 0. -/
def ch0 : CEXIChannel :=
  { m_ChannelId := 0, m_Status := status0, m_Control := control0
    m_DMAMemoryAddress := 0, m_DMALength := 0, m_ImmData := 0
    m_dma_time_start := 0, m_dma_time_length := 0
    m_dma_data_start := 0, m_dma_data_length := 0 }

/-- Channel 0 with chip-select code 1 (slot 0) currently selected. -/
def chCS1 : CEXIChannel :=
  { ch0 with m_Status := { status0 with CHIP_SELECT := 1 } }

/-- A status write value selecting chip-select code 2 (slot 1). -/
def vCS2 : UEXI_STATUS := { status0 with CHIP_SELECT := 2 }

/-- Channel 0 with `ROMDIS` already latched. -/
def chROM : CEXIChannel :=
  { ch0 with m_Status := { status0 with ROMDIS := true } }

/-- Channel 0 with a transfer in flight (`TSTART = 1`). -/
def chT : CEXIChannel :=
  { ch0 with m_Control := { control0 with TSTART := true } }

/-- A channel in the middle of an active DMA: snapshot
`addr_start = 0`, `length_total = 63`, `t_start = 0`, `t_duration = 64`. -/
def ch3cex : CEXIChannel :=
  { ch0 with
    m_Control := { TSTART := true, DMA := true, RW := 1, TLEN := 0 }
    m_dma_time_start := 0
    m_dma_time_length := 64
    m_dma_data_start := 0
    m_dma_data_length := 63 }

/-- A mid-DMA channel with round numbers, used to instantiate theorems with
hypotheses: snapshot `addr_start = 0x1000`, `length_total = 0x100`,
`t_start = 100`, `t_duration = 200`. -/
def chDMA : CEXIChannel :=
  { ch0 with
    m_Control := { TSTART := true, DMA := true, RW := 1, TLEN := 0 }
    m_dma_time_start := 100
    m_dma_time_length := 200
    m_dma_data_start := 0x1000
    m_dma_data_length := 0x100 }

/-- The state after the guest, with a present device at chip-select 1 and
`m_DMALength = 0`, writes DMACONTROL with `TSTART = 1, DMA = 1, RW = 1` at
tick 1000: the kick-off computes `xfer_time = 0` and snapshots
`m_dma_time_length = 0`. -/
def ch10post : CEXIChannel :=
  (DMAControlWrite (fun _ => devPresent) chCS1
    { TSTART := true, DMA := true, RW := 1, TLEN := 0 } 1000 486000000).1

/-! ### Helper lemmas -/

/-- Reducing modulo `2^32` before masking with the 32-bit mask `0xFFFFFFE0`
changes nothing: the mask has no bits at or above position 32. -/
theorem land_mask_mod_two32 (x : Nat) :
    x % two32 &&& 0xFFFFFFE0 = x &&& 0xFFFFFFE0 := by
  unfold two32
  apply Nat.eq_of_testBit_eq
  intro i
  rw [Nat.testBit_and, Nat.testBit_and, Nat.testBit_mod_two_pow]
  rcases lt_or_ge i 32 with h | h
  · simp [h]
  · have hm : Nat.testBit 0xFFFFFFE0 i = false := by
      apply Nat.testBit_lt_two_pow
      calc (0xFFFFFFE0 : Nat) < 2 ^ 32 := by norm_num
        _ ≤ 2 ^ i := Nat.pow_le_pow_right (by norm_num) h
    simp [hm]

/-- Wrapping `u64` subtraction agrees with exact subtraction when the
operands are ordered and in range. -/
theorem sub64_eq_sub {a b : Nat} (hba : b ≤ a) (ha : a < two64) :
    sub64 a b = a - b := by
  unfold sub64
  have h1 : two64 + a - b = two64 + (a - b) := by omega
  rw [h1, Nat.add_mod_left, Nat.mod_eq_of_lt (by omega)]

/-! ### Claim theorems -/

/-- Claim C1: every STATUS read recomputes `EXT` at read time from the
presence predicate of the device at `GetDevice(1)` (forced to 0 on
channel 2), independently of the stored `EXT`; and no STATUS write ever
changes the stored `EXT`, so `EXT` is not latched from writes. -/
theorem C1_status_read_recomputes_EXT :
    ∀ (devs : Fin 3 → IEXIDevice) (ch : CEXIChannel),
      ((StatusRead devs ch).m_Status.EXT =
        if ch.m_ChannelId = 2 then false
        else (GetDevice devs 1).any IEXIDevice.IsPresent) ∧
      ∀ v : UEXI_STATUS, (StatusWrite ch v).1.m_Status.EXT = ch.m_Status.EXT := by
  intro devs ch
  constructor
  · by_cases h : ch.m_ChannelId = 2 <;>
      simp [StatusRead, GetDevice, csSlot, h, Option.any]
  · intro v
    unfold StatusWrite
    by_cases h : ch.m_Status.CHIP_SELECT ≠ v.CHIP_SELECT <;> simp [h]

/-- Claim C2: `IsCausingInterrupt` latches `EXIINT` when the channel is not
2 and `GetDevice(1)`'s interrupt predicate holds, otherwise when the
chip-selected device's interrupt predicate holds; it returns
`(EXIINT ∧ EXIINTMASK) ∨ (TCINT ∧ TCINTMASK) ∨ (EXTINT ∧ EXTINTMASK)`
evaluated on the updated `EXIINT` and the unchanged masks and latches. -/
theorem C2_is_causing_interrupt_spec :
    ∀ (devs : Fin 3 → IEXIDevice) (ch : CEXIChannel),
      ((IsCausingInterrupt devs ch).1.m_Status.EXIINT =
        (if ch.m_ChannelId ≠ 2 ∧ (GetDevice devs 1).any IEXIDevice.IsInterruptSet then
          true
        else if (GetDevice devs ch.m_Status.CHIP_SELECT).any IEXIDevice.IsInterruptSet then
          true
        else ch.m_Status.EXIINT)) ∧
      (IsCausingInterrupt devs ch).2 =
        (((IsCausingInterrupt devs ch).1.m_Status.EXIINT && ch.m_Status.EXIINTMASK) ||
         (ch.m_Status.TCINT && ch.m_Status.TCINTMASK) ||
         (ch.m_Status.EXTINT && ch.m_Status.EXTINTMASK)) := by
  intro devs ch
  have hone : GetDevice devs 1 = some (devs 0) := rfl
  unfold IsCausingInterrupt
  rw [hone]
  rcases hd : GetDevice devs ch.m_Status.CHIP_SELECT with _ | d
  · by_cases h2 : ch.m_ChannelId = 2 <;>
      by_cases hi : (devs 0).IsInterruptSet <;>
        simp [h2, hi, hd, Option.any]
  · by_cases h2 : ch.m_ChannelId = 2 <;>
      by_cases hi : (devs 0).IsInterruptSet <;>
        by_cases hd2 : d.IsInterruptSet <;>
          simp [h2, hi, hd, hd2, Option.any]

/-- Claim C5: after a STATUS write, each of the three interrupt latch bits
reads 0 when the written value had a 1 there (and keeps its old value
otherwise), and the three mask bits are overwritten verbatim. -/
theorem C5_status_write_latches_and_masks :
    ∀ (ch : CEXIChannel) (v : UEXI_STATUS),
      ((StatusWrite ch v).1.m_Status.EXIINT = (!v.EXIINT && ch.m_Status.EXIINT)) ∧
      ((StatusWrite ch v).1.m_Status.TCINT = (!v.TCINT && ch.m_Status.TCINT)) ∧
      ((StatusWrite ch v).1.m_Status.EXTINT = (!v.EXTINT && ch.m_Status.EXTINT)) ∧
      ((StatusWrite ch v).1.m_Status.EXIINTMASK = v.EXIINTMASK) ∧
      ((StatusWrite ch v).1.m_Status.TCINTMASK = v.TCINTMASK) ∧
      ((StatusWrite ch v).1.m_Status.EXTINTMASK = v.EXTINTMASK) := by
  intro ch v
  unfold StatusWrite
  by_cases h : ch.m_Status.CHIP_SELECT ≠ v.CHIP_SELECT <;>
    cases hE : v.EXIINT <;> cases hT : v.TCINT <;> cases hX : v.EXTINT <;>
      simp [h, hE, hT, hX]

/-- Claim C4: when the transfer-complete event fires with `DMA = 1`, the
progress registers are finalized (`m_DMALength = 0`, `m_DMAMemoryAddress =
addr_start + length_total` in `u32`), the snapshot is zeroed, `TCINT` is
latched and interrupt re-evaluation is requested; in all cases `TSTART` is
cleared afterwards, and an immediate transfer neither raises `TCINT` nor
requests re-evaluation. -/
theorem C4_transfer_complete_effects :
    ∀ ch : CEXIChannel,
      ((TransferComplete ch).1.m_Control.TSTART = false) ∧
      (ch.m_Control.DMA = true →
        (TransferComplete ch).1.m_DMALength = 0 ∧
        (TransferComplete ch).1.m_DMAMemoryAddress =
          (ch.m_dma_data_start + ch.m_dma_data_length) % two32 ∧
        (TransferComplete ch).1.m_dma_time_start = 0 ∧
        (TransferComplete ch).1.m_dma_time_length = 0 ∧
        (TransferComplete ch).1.m_dma_data_start = 0 ∧
        (TransferComplete ch).1.m_dma_data_length = 0 ∧
        (TransferComplete ch).1.m_Status.TCINT = true ∧
        (TransferComplete ch).2 = true) ∧
      (ch.m_Control.DMA = false →
        (TransferComplete ch).1.m_Status.TCINT = ch.m_Status.TCINT ∧
        (TransferComplete ch).2 = false) := by
  intro ch
  cases h : ch.m_Control.DMA <;> simp [TransferComplete, h]

/-- Witness for C4 at the concrete mid-DMA channel `chDMA`. -/
theorem C4_transfer_complete_effects_witness :
    (TransferComplete chDMA).1.m_Control.TSTART = false ∧
    (TransferComplete chDMA).1.m_DMALength = 0 ∧
    (TransferComplete chDMA).1.m_Status.TCINT = true :=
  ⟨(C4_transfer_complete_effects chDMA).1,
   ((C4_transfer_complete_effects chDMA).2.1 rfl).1,
   ((C4_transfer_complete_effects chDMA).2.1 rfl).2.2.2.2.2.2.1⟩

/-- Claim C6: `ROMDIS` is monotonic across every modelled operation — once
the stored `ROMDIS` is 1, no operation (in particular no STATUS write,
whatever value it writes) makes it 0 again. -/
theorem C6_romdis_monotonic :
    ∀ (devs : Fin 3 → IEXIDevice) (ch : CEXIChannel) (op : Op),
      ch.m_Status.ROMDIS = true → (step devs ch op).m_Status.ROMDIS = true := by
  intro devs ch op h
  cases op with
  | statusRead => simpa [step, StatusRead] using h
  | statusWrite v =>
    unfold step StatusWrite
    by_cases hcs : ch.m_Status.CHIP_SELECT ≠ v.CHIP_SELECT <;> simp [hcs, h]
  | dmaAddrRead now =>
    unfold step DMAAddrRead
    cases hA : (ch.m_Control.TSTART && ch.m_Control.DMA) <;> simp [hA, h]
  | dmaAddrWrite v => simpa [step, DMAAddrWrite] using h
  | dmaLengthRead now =>
    unfold step DMALengthRead
    cases hA : (ch.m_Control.TSTART && ch.m_Control.DMA) <;> simp [hA, h]
  | dmaLengthWrite v => simpa [step, DMALengthWrite] using h
  | controlWrite v now tps =>
    show (DMAControlWrite devs ch v now tps).1.m_Status.ROMDIS = true
    unfold DMAControlWrite
    split
    · exact h
    · dsimp only
      repeat' split
      all_goals simp [h]
  | immDataWrite v => simpa [step, ImmDataWrite] using h
  | xferComplete =>
    unfold step TransferComplete
    cases hD : ch.m_Control.DMA <;> simp [hD, h]
  | causingInterrupt =>
    show (IsCausingInterrupt devs ch).1.m_Status.ROMDIS = true
    unfold IsCausingInterrupt
    dsimp only
    repeat' split
    all_goals simp [h]
  | addDevice notify =>
    show (AddDevice ch notify).m_Status.ROMDIS = true
    unfold AddDevice
    split <;> simp [h]

/-- Witness for C6: a STATUS write of all zeros (in particular
`ROMDIS = 0`) on a channel whose `ROMDIS` is latched leaves it latched. -/
theorem C6_romdis_monotonic_witness :
    (step devsNone chROM (Op.statusWrite status0)).m_Status.ROMDIS = true :=
  C6_romdis_monotonic devsNone chROM (Op.statusWrite status0) rfl

/-- Claim C7: a DMACONTROL write issued while `TSTART = 1` is ignored in
its entirety — the state (control, DMA registers, `m_ImmData`, status) is
unchanged, no device call is made and no completion event is scheduled. -/
theorem C7_control_write_ignored_while_tstart :
    ∀ (devs : Fin 3 → IEXIDevice) (ch : CEXIChannel) (v : UEXI_CONTROL) (now tps : Nat),
      ch.m_Control.TSTART = true →
      DMAControlWrite devs ch v now tps = (ch, [], none) := by
  intro devs ch v now tps h
  simp [DMAControlWrite, h]

/-- Witness for C7 at the concrete in-flight channel `chT`. -/
theorem C7_control_write_ignored_while_tstart_witness :
    DMAControlWrite devsNone chT control0 7 486000000 = (chT, [], none) :=
  C7_control_write_ignored_while_tstart devsNone chT control0 7 486000000 rfl

/-- Claim C8: a DMACONTROL write that sets `TSTART = 1` while the current
chip-select decodes to no device dispatches nothing: no device call, no
scheduled completion event, and `TSTART` stays 1 afterwards. -/
theorem C8_kickoff_null_device_noop :
    ∀ (devs : Fin 3 → IEXIDevice) (ch : CEXIChannel) (v : UEXI_CONTROL) (now tps : Nat),
      ch.m_Control.TSTART = false →
      v.TSTART = true →
      csSlot ch.m_Status.CHIP_SELECT = none →
      (DMAControlWrite devs ch v now tps).2.1 = [] ∧
      (DMAControlWrite devs ch v now tps).2.2 = none ∧
      (DMAControlWrite devs ch v now tps).1.m_Control.TSTART = true := by
  intro devs ch v now tps h0 hv hcs
  simp [DMAControlWrite, h0, hv, hcs]

/-- Witness for C8: kick-off on `ch0`, whose chip-select code 0 decodes to
no slot. -/
theorem C8_kickoff_null_device_noop_witness :
    (DMAControlWrite devsNone ch0 { TSTART := true, DMA := true, RW := 1, TLEN := 0 }
        5 486000000).2.1 = [] ∧
    (DMAControlWrite devsNone ch0 { TSTART := true, DMA := true, RW := 1, TLEN := 0 }
        5 486000000).2.2 = none ∧
    (DMAControlWrite devsNone ch0 { TSTART := true, DMA := true, RW := 1, TLEN := 0 }
        5 486000000).1.m_Control.TSTART = true :=
  C8_kickoff_null_device_noop devsNone ch0
    { TSTART := true, DMA := true, RW := 1, TLEN := 0 } 5 486000000 rfl rfl rfl

/-- Claim C9: a STATUS write changing the chip-select from a valid one-hot
code `a` to a different valid code `b` makes exactly the two calls
`SetCS 0` on slot `a` then `SetCS 1` on slot `b`, in that order; a write
repeating the current chip-select makes no `SetCS` call. -/
theorem C9_chip_select_call_sequence :
    ∀ (ch : CEXIChannel) (v : UEXI_STATUS),
      (∀ a b : Fin 3,
        csSlot ch.m_Status.CHIP_SELECT = some a →
        csSlot v.CHIP_SELECT = some b →
        ch.m_Status.CHIP_SELECT ≠ v.CHIP_SELECT →
        (StatusWrite ch v).2 = [DeviceCall.SetCS a 0, DeviceCall.SetCS b 1]) ∧
      (v.CHIP_SELECT = ch.m_Status.CHIP_SELECT → (StatusWrite ch v).2 = []) := by
  intro ch v
  constructor
  · intro a b ha hb hne
    unfold StatusWrite
    simp [hne, ha, hb]
  · intro he
    unfold StatusWrite
    simp [he]

/-- Witness for C9: flipping chip-select 1 → 2 yields
`[SetCS slot0 0, SetCS slot1 1]`. -/
theorem C9_chip_select_call_sequence_witness :
    (StatusWrite chCS1 vCS2).2 = [DeviceCall.SetCS 0 0, DeviceCall.SetCS 1 1] :=
  (C9_chip_select_call_sequence chCS1 vCS2).1 0 1 rfl rfl (by decide)

/-- Counterexample to claim C3 as stated: on the mid-DMA channel `ch3cex`
(`length_total = 63`, `t_duration = 64`, `t_start = 0`) read at tick 32,
the source's DMALENGTH read returns `63 − 63·32/64 = 32` (masked: 32),
while the claim's formula `length_total·(t_duration − elapsed)/t_duration`
gives `63·32/64 = 31` (masked: 0). -/
theorem C3_dma_poll_reads_counterexample :
    (DMALengthRead ch3cex 32).2 = 32 ∧ DMALengthRead_spec ch3cex 32 = 0 := by
  constructor <;> decide

/-- Claim C3, amended: with the DMALENGTH formula corrected to the
source's `length_total − length_total·elapsed/t_duration` (the DMAADDR
formula is as claimed), both polled reads match the exact-arithmetic
formulas.  The hypotheses state the `u32`/`u64` ranges of the snapshot
fields, that the clock has not wrapped past `t_start`, that `t_duration`
is positive (claim C10 records the division by zero when it is 0), and
that the 64-bit interpolation product does not overflow. -/
theorem C3_dma_poll_reads_amended (ch : CEXIChannel) (now : Nat)
    (hstart : ch.m_dma_data_start < two32)
    (hlen : ch.m_dma_data_length < two32)
    (hts : ch.m_dma_time_start ≤ now)
    (hnow : now < two64)
    (hdur : 0 < ch.m_dma_time_length)
    (hmul : ch.m_dma_data_length * ch.m_dma_time_length < two64) :
    (DMAAddrRead ch now).2 = DMAAddrRead_spec ch now ∧
    (DMALengthRead ch now).2 = DMALengthRead_amended ch now := by
  have h3264 : two32 < two64 := by unfold two32 two64; norm_num
  cases hA : (ch.m_Control.TSTART && ch.m_Control.DMA) with
  | false =>
    simp [DMAAddrRead, DMALengthRead, DMAAddrRead_spec, DMALengthRead_amended, hA]
  | true =>
    have hel : sub64 now ch.m_dma_time_start = now - ch.m_dma_time_start :=
      sub64_eq_sub hts hnow
    by_cases hgt : sub64 now ch.m_dma_time_start > ch.m_dma_time_length
    · -- elapsed strictly past the duration: both sides take the completed branch
      have hge : ch.m_dma_time_length ≤ now - ch.m_dma_time_start := by
        rw [hel] at hgt
        exact le_of_lt hgt
      constructor
      · simp [DMAAddrRead, DMAAddrRead_spec, hA, hgt, hge, land_mask_mod_two32]
      · simp [DMALengthRead, DMALengthRead_amended, hA, hgt, hge]
    · -- elapsed within the duration: the interpolation branch
      have hle : now - ch.m_dma_time_start ≤ ch.m_dma_time_length := by
        rw [hel] at hgt
        exact Nat.le_of_not_lt hgt
      have hprodlt :
          ch.m_dma_data_length * (now - ch.m_dma_time_start) < two64 :=
        lt_of_le_of_lt (Nat.mul_le_mul (le_refl _) hle) hmul
      have hmod : ch.m_dma_data_length * (now - ch.m_dma_time_start) % two64 =
          ch.m_dma_data_length * (now - ch.m_dma_time_start) :=
        Nat.mod_eq_of_lt hprodlt
      have hq_le :
          ch.m_dma_data_length * (now - ch.m_dma_time_start) / ch.m_dma_time_length ≤
            ch.m_dma_data_length := by
        apply Nat.div_le_of_le_mul
        calc ch.m_dma_data_length * (now - ch.m_dma_time_start)
            ≤ ch.m_dma_data_length * ch.m_dma_time_length :=
              Nat.mul_le_mul (le_refl _) hle
          _ = ch.m_dma_time_length * ch.m_dma_data_length := Nat.mul_comm _ _
      have hsumlt :
          ch.m_dma_data_start +
            ch.m_dma_data_length * (now - ch.m_dma_time_start) / ch.m_dma_time_length <
            two64 := by
        have hq32 : ch.m_dma_data_length * (now - ch.m_dma_time_start) /
            ch.m_dma_time_length < two32 := lt_of_le_of_lt hq_le hlen
        have h64 : two32 + two32 ≤ two64 := by unfold two32 two64; norm_num
        omega
      constructor
      · -- DMAADDR
        simp only [DMAAddrRead, DMAAddrRead_spec, hA, if_true]
        rw [if_neg hgt]
        rw [hel, hmod, Nat.mod_eq_of_lt hsumlt, land_mask_mod_two32]
        by_cases hge : ch.m_dma_time_length ≤ now - ch.m_dma_time_start
        · have heq : now - ch.m_dma_time_start = ch.m_dma_time_length :=
            le_antisymm hle hge
          rw [if_pos hge, heq, Nat.mul_div_cancel _ hdur]
        · rw [if_neg hge]
      · -- DMALENGTH
        simp only [DMALengthRead, DMALengthRead_amended, hA, if_true]
        rw [if_neg hgt]
        have hlen64 : ch.m_dma_data_length < two64 := lt_trans hlen h3264
        rw [hel, hmod, sub64_eq_sub hq_le hlen64,
          Nat.mod_eq_of_lt (lt_of_le_of_lt (Nat.sub_le _ _) hlen)]
        by_cases hge : ch.m_dma_time_length ≤ now - ch.m_dma_time_start
        · have heq : now - ch.m_dma_time_start = ch.m_dma_time_length :=
            le_antisymm hle hge
          rw [if_pos hge, heq, Nat.mul_div_cancel _ hdur, Nat.sub_self]
          decide
        · rw [if_neg hge]

/-- Witness for the amended C3 at the concrete mid-DMA channel `chDMA`,
read at tick 200 (elapsed 100 of 200). -/
theorem C3_dma_poll_reads_amended_witness :
    (DMAAddrRead chDMA 200).2 = DMAAddrRead_spec chDMA 200 ∧
    (DMALengthRead chDMA 200).2 = DMALengthRead_amended chDMA 200 :=
  C3_dma_poll_reads_amended chDMA 200 (by decide) (by decide) (by decide)
    (by decide) (by decide) (by decide)

/-- Claim C10 fails on the source: the guest can kick off a DMA transfer
with `m_DMALength = 0` (device present at chip-select 1), which computes
`xfer_time = 0` and snapshots `m_dma_time_length = 0` while leaving
`TSTART = 1`; a DMAADDR or DMALENGTH read at the same tick then reaches
the interpolation division with divisor 0 (undefined behaviour in C++). -/
theorem C10_poll_division_by_zero_reachable :
    ch10post.m_Control.TSTART = true ∧
    ch10post.m_dma_time_length = 0 ∧
    PollDivisionByZero ch10post 1000 = true := by
  refine ⟨by decide, by decide, by decide⟩

end EXI
